import Mathlib

set_option linter.unusedSectionVars false

/-!
Verification of `kipoiseq/datasets/sequence.py` (interval-table ingestion and
sequence-dataset pipeline).

The Python source is shallowly embedded: pure functions become Lean functions,
fallible construction and lookup become `Except String`, pandas data frames
become typed row lists, and machine integers become `Int`/`Nat`.  Helpers that
the source imports from other modules of the repository
(`resize_interval`, `OneHot`, `DummyAxis`, `SwapAxes`) are modelled from the
specification and marked as such in their doc comments.
-/

namespace Kipoiseq

/-! ## Dtype parsing (`parse_dtype`, sequence.py lines 28-36) -/

/-- The closed set of scalar label dtypes the loader recognizes
(Python `int`, `str`, `float`, `bool`). -/
inductive Dtype where
  | dInt
  | dString
  | dFloat
  | dBool
deriving DecidableEq, Repr

/-- The possible Python values of the `dtype` argument of `parse_dtype`:
`None`, a dtype name string, or one of the type objects themselves. -/
inductive PyDtypeArg where
  | pyNone
  | name (s : String)
  | typeObj (t : Dtype)
deriving DecidableEq, Repr

/-- The keys of the `dtypes` dict in `parse_dtype`. -/
def dtypeNames : List String := ["int", "string", "float", "bool"]

/-- The dict lookup `dtypes[dtype]` of `parse_dtype`. -/
def dtypeOfName (s : String) : Option Dtype :=
  if s = "int" then some Dtype.dInt
  else if s = "string" then some Dtype.dString
  else if s = "float" then some Dtype.dFloat
  else if s = "bool" then some Dtype.dBool
  else none

/-- Embedding of `parse_dtype` (sequence.py lines 28-36): `None` passes
through, a recognized type object passes through, a recognized name maps to
its type, and any other name raises. -/
def parse_dtype (dtype : PyDtypeArg) : Except String (Option Dtype) :=
  match dtype with
  | PyDtypeArg.pyNone => Except.ok none
  | PyDtypeArg.typeObj t => Except.ok (some t)
  | PyDtypeArg.name s =>
    match dtypeOfName s with
    | some t => Except.ok (some t)
    | none => Except.error ("Datatype " ++ s ++ " not recognized. Allowed are: int, string, float, bool")

/-! ## Alphabet parsing (`parse_alphabet`, sequence.py lines 39-43) -/

/-- The possible Python values of the `alphabet` argument: a string (named
preset such as `DNA` or a raw symbol string such as the default `ACGT`) or an
explicit list of symbols. -/
inductive AlphabetArg where
  | strArg (s : String)
  | listArg (l : List Char)
deriving DecidableEq, Repr

/-- Python string split: `s.split(sep)` raises `ValueError: empty separator`
when `sep` is the empty string, and otherwise splits on the separator. -/
def pythonSplit (s sep : String) : Except String (List String) :=
  if sep = "" then Except.error "ValueError: empty separator"
  else Except.ok (s.splitOn sep)

/-- Embedding of `parse_alphabet` (sequence.py lines 39-43): a string argument
is passed to `alphabet.split('')` (which always raises in Python, since the
separator is empty); a list argument is returned unchanged. -/
def parse_alphabet (alphabet : AlphabetArg) : Except String (List Char) :=
  match alphabet with
  | AlphabetArg.strArg s =>
    match pythonSplit s "" with
    | Except.error e => Except.error e
    | Except.ok parts => Except.ok (parts.map (fun p => p.toList)).flatten
  | AlphabetArg.listArg l => Except.ok l

/-! ## The interval table (`BedDataset`, sequence.py lines 46-137)

A parsed row of the tab-separated file: column 0 is the chromosome string;
the remaining columns (BED columns 1..bed_columns-1 followed by the task-label
columns) are kept as an abstract cell type `α`, since the per-column pandas
dtype casting only converts cell representations and never adds, removes or
reorders rows.  The task labels of a row are the cells from file column
`bed_columns` on, i.e. `rest.drop (bed_columns - 1)` (assuming
`bed_columns ≥ 1`; column 0 is always the chromosome). -/

structure BedRow (α : Type) where
  chrom : String
  rest : List α
deriving DecidableEq, Repr

variable {α : Type} [DecidableEq α] {β : Type}

/-- The task-label cells of a row: file columns `bed_columns ..` . -/
def rowLabels (bed_columns : Nat) (r : BedRow α) : List α :=
  r.rest.drop (bed_columns - 1)

/-- Python `s.startswith("chr")`, written as a pattern match on the
character list of `s`. -/
def pyStartswithChr (s : String) : Bool :=
  match s.data with
  | 'c' :: 'h' :: 'r' :: _ => true
  | _ => false

/-- Embedding of `self.df[0].str.replace("^chr", "")` applied to one cell:
the regex anchors at the start, so it removes a leading `"chr"` when present
and leaves the cell unchanged otherwise. -/
def stripChr (s : String) : String :=
  if pyStartswithChr s then s.drop 3 else s

/-- Embedding of sequence.py lines 106-107: if `num_chr` is set and the
first row's chromosome starts with `"chr"`, remove the leading `"chr"` from
column 0 of every row. -/
def normalizeChromsStrip (num_chr : Bool) (rows : List (BedRow α)) : List (BedRow α) :=
  match rows with
  | [] => []
  | r0 :: _ =>
    if num_chr && pyStartswithChr r0.chrom
    then rows.map (fun r => { r with chrom := stripChr r.chrom })
    else rows

/-- Embedding of sequence.py lines 108-109: if `num_chr` is unset and the
first row's chromosome does not start with `"chr"`, prepend `"chr"` to
column 0 of every row. -/
def normalizeChromsPrepend (num_chr : Bool) (rows : List (BedRow α)) : List (BedRow α) :=
  match rows with
  | [] => []
  | r1 :: _ =>
    if !num_chr && !(pyStartswithChr r1.chrom)
    then rows.map (fun r => { r with chrom := "chr" ++ r.chrom })
    else rows

/-- Embedding of sequence.py lines 106-109: chromosome-name normalization,
decided by sniffing the first row; the two conditionals run in sequence as in
the source, the second one re-reading the (possibly already rewritten) first
row. -/
def normalizeChroms (num_chr : Bool) (rows : List (BedRow α)) : List (BedRow α) :=
  normalizeChromsPrepend num_chr (normalizeChromsStrip num_chr rows)

/-- Row predicate behind line 113: all task-label cells equal the mask. -/
def allMaskRow (bed_columns : Nat) (m : α) (r : BedRow α) : Bool :=
  (rowLabels bed_columns r).all (fun x => x = m)

/-- Embedding of sequence.py lines 111-113: when `ambiguous_mask` is set,
keep exactly the rows with at least one label cell different from the mask
(`~np.all(df.iloc[:, bed_columns:] == ambiguous_mask, axis=1)`). -/
def applyMaskFilter (bed_columns : Nat) (mask : Option α) (rows : List (BedRow α)) :
    List (BedRow α) :=
  match mask with
  | none => rows
  | some m => rows.filter (fun r => !allMaskRow bed_columns m r)

/-- Embedding of sequence.py lines 116-117: keep rows whose chromosome is in
`incl_chromosomes` when that option is set. -/
def applyInclFilter (incl : Option (List String)) (rows : List (BedRow α)) :
    List (BedRow α) :=
  match incl with
  | none => rows
  | some cs => rows.filter (fun r => cs.contains r.chrom)

/-- Embedding of sequence.py lines 118-119: drop rows whose chromosome is in
`excl_chromosomes` when that option is set. -/
def applyExclFilter (excl : Option (List String)) (rows : List (BedRow α)) :
    List (BedRow α) :=
  match excl with
  | none => rows
  | some cs => rows.filter (fun r => !cs.contains r.chrom)

/-- The row predicate of the inclusion filter: satisfied by every row when
`incl_chromosomes` is unset, and by the rows whose chromosome is in the list
otherwise. -/
def inclPred (incl : Option (List String)) (r : BedRow α) : Bool :=
  match incl with
  | none => true
  | some cs => cs.contains r.chrom

/-- The row predicate of the exclusion filter: satisfied by every row when
`excl_chromosomes` is unset, and by the rows whose chromosome is not in the
list otherwise. -/
def exclPred (excl : Option (List String)) (r : BedRow α) : Bool :=
  match excl with
  | none => true
  | some cs => !cs.contains r.chrom

/-- Embedding of `BedDataset.__init__` (sequence.py lines 79-119) acting on
the parsed row list of the tab-separated file.  An empty file makes the
initial one-row peek fail (pandas `EmptyDataError`).  `n_tasks` is the first
row's total column count minus `bed_columns`; the `assert n_tasks >= 0`
failure surfaces as an error.  The per-column dtype table passed to
`pd.read_table` (fixed BED types, then `label_dtype` for the `n_tasks` label
columns) only casts cell contents, which the abstract cell type `α` absorbs,
so `label_dtype` does not affect the row list.  Then chromosome
normalization and the three row filters run in source order. -/
def bedDatasetInit (label_dtype : Option Dtype) (bed_columns : Nat) (num_chr : Bool)
    (ambiguous_mask : Option α) (incl_chromosomes excl_chromosomes : Option (List String))
    (rows : List (BedRow α)) : Except String (List (BedRow α)) :=
  match rows with
  | [] => Except.error "EmptyDataError: no columns to parse from file"
  | r0 :: _ =>
    let n_tasks : Int := (1 + r0.rest.length : Int) - (bed_columns : Int)
    if n_tasks < 0 then Except.error "AssertionError: n_tasks >= 0"
    else
      let _ := label_dtype
      let df := normalizeChroms num_chr rows
      let df := applyMaskFilter bed_columns ambiguous_mask df
      let df := applyInclFilter incl_chromosomes df
      let df := applyExclFilter excl_chromosomes df
      Except.ok df

/-! ## Intervals and resizing -/

/-- A genomic interval as produced by `BedDataset.__getitem__` from the
leading BED columns of a row: chromosome name with integer start and stop. -/
structure Interval where
  chrom : String
  start : Int
  stop : Int
deriving DecidableEq, Repr

/-- Modelled from the spec: `resize_interval(interval, anchor, target_length)`
is imported from `kipoiseq.transforms.functional`, which is not under `src/`.
Spec 4.2: anchor `start` keeps `start` and sets `stop = start + L`; anchor
`end` keeps `stop` and sets `start = stop - L`; anchor `center` takes the
midpoint `m = (start + stop) / 2`, sets `start = floor(m - L/2)` (which is
`floor((start + stop - L) / 2)`, rounding toward the lower coordinate) and
`stop = start + L`; any other anchor name fails with a configuration error. -/
def resize_interval (interval : Interval) (anchor : String) (L : Int) :
    Except String Interval :=
  if anchor = "start" then
    Except.ok { interval with stop := interval.start + L }
  else if anchor = "end" then
    Except.ok { interval with start := interval.stop - L }
  else if anchor = "center" then
    let s := Int.fdiv (interval.start + interval.stop - L) 2
    Except.ok { interval with start := s, stop := s + L }
  else
    Except.error ("ConfigurationError: unknown anchor " ++ anchor)

/-! ## The string dataset (`SeqStringDataset`, sequence.py lines 187-243) -/

/-- The `GenomicRanges` metadata attached to a returned record:
`GenomicRanges(interval.chrom, interval.start, interval.stop, str(idx))`. -/
structure GenomicRanges where
  chrom : String
  start : Int
  stop : Int
  id : String
deriving DecidableEq, Repr

/-- The record returned by `SeqStringDataset.__getitem__`: the extracted
sequence string, the label vector, and the range metadata. -/
structure SeqRecord (β : Type) where
  inputs : String
  targets : β
  metadata : GenomicRanges
deriving DecidableEq, Repr

/-- Embedding of `SeqStringDataset.__init__` (sequence.py lines 207-209): the
interval table is built with `num_chr = num_chr_fasta` and
`label_dtype = parse_dtype(label_dtype)`, leaving `bed_columns` at its
default 3 and `ambiguous_mask`, `incl_chromosomes`, `excl_chromosomes` at
their default `None`. -/
def seqStringDatasetInit (num_chr_fasta : Bool) (label_dtype : PyDtypeArg)
    (rows : List (BedRow α)) : Except String (List (BedRow α)) :=
  match parse_dtype label_dtype with
  | Except.error e => Except.error e
  | Except.ok d => bedDatasetInit d 3 num_chr_fasta none none none rows

/-- The interval-length check of `SeqStringDataset.__getitem__` (sequence.py
lines 222-228): when `required_seq_len` is set and the interval's length
differs from it, resize via `resize_interval` if `auto_resize` is set and
fail otherwise; in all other cases the interval passes through unchanged. -/
def resolveInterval (required_seq_len : Option Int) (auto_resize : Option String)
    (interval : Interval) : Except String Interval :=
  match required_seq_len with
  | none => Except.ok interval
  | some L =>
    if interval.stop - interval.start = L then Except.ok interval
    else
      match auto_resize with
      | some anchor => resize_interval interval anchor L
      | none => Except.error "Sequence interval in intervals_file does not match required model sequence length. Update intervals_file or use the auto_resize argument."

/-- The record built at sequence.py lines 237-243 from the resolved interval:
`inputs` is the extracted sequence, `targets` the labels, and `metadata` the
`GenomicRanges` of the extracted interval with `id = str(idx)`. -/
def mkSeqRecord (extract : Interval → String) (idx : Nat) (iv : Interval)
    (labels : β) : SeqRecord β :=
  { inputs := extract iv
    targets := labels
    metadata := { chrom := iv.chrom, start := iv.start, stop := iv.stop, id := toString idx } }

/-- Embedding of `SeqStringDataset.__getitem__` (sequence.py lines 215-243)
for the row `(interval, labels)` fetched from the interval table at `idx`:
resolve the interval length, extract the sequence via the external
`FastaStringExtractor` (abstracted as `extract`), and return the record. -/
def seqStringGetitem (required_seq_len : Option Int) (auto_resize : Option String)
    (extract : Interval → String) (idx : Nat) (interval : Interval) (labels : β) :
    Except String (SeqRecord β) :=
  match resolveInterval required_seq_len auto_resize interval with
  | Except.error e => Except.error e
  | Except.ok iv => Except.ok (mkSeqRecord extract idx iv labels)

/-! ## The encoded dataset (`SeqDataset`, sequence.py lines 263-351) -/

/-- The transform configuration stored by `SeqDataset.__init__`
(sequence.py lines 326-329): the axis parameters and the parsed alphabet. -/
structure SeqDatasetConfig where
  alphabet_axis : Nat
  dummy_axis : Option Nat
  alphabet : List Char
deriving DecidableEq, Repr

/-- Embedding of the configuration part of `SeqDataset.__init__`
(sequence.py lines 314-329): `self.alphabet = parse_alphabet(alphabet)` runs
at construction time, so constructing the dataset fails whenever
`parse_alphabet` raises. -/
def seqDatasetInit (alphabet_axis : Nat) (dummy_axis : Option Nat)
    (alphabet : AlphabetArg) : Except String SeqDatasetConfig :=
  match parse_alphabet alphabet with
  | Except.error e => Except.error e
  | Except.ok a => Except.ok { alphabet_axis := alphabet_axis, dummy_axis := dummy_axis, alphabet := a }

/-- Modelled from the spec: `OneHot` (kipoiseq.transforms, not under `src/`).
Spec 4.4: `encode(sequence, alphabet)` is a `len(sequence) x len(alphabet)`
0/1 matrix, row `i` has a 1 exactly in the column of `sequence[i]` in the
alphabet, and a symbol absent from the alphabet yields an all-zero row. -/
def one_hot (alphabet : List Char) (s : List Char) : List (List Nat) :=
  s.map (fun c => alphabet.map (fun b => if b = c then 1 else 0))

/-- The kind of a tensor axis, tracked through the transform pipeline:
sequence position, alphabet symbol, or an inserted dummy axis. -/
inductive AxisKind where
  | position
  | symbol
  | dummyAx
deriving DecidableEq, Repr

/-- One tensor axis: its kind and its size. -/
structure AxisDim where
  kind : AxisKind
  size : Nat
deriving DecidableEq, Repr

/-- The shape of the `OneHot` output tensor: axis 0 is the sequence position,
axis 1 is the alphabet symbol (spec 4.4). -/
def oneHotShape (alphabet : List Char) (s : List Char) : List AxisDim :=
  [{ kind := AxisKind.position, size := s.length },
   { kind := AxisKind.symbol, size := alphabet.length }]

/-- Modelled from the spec: `DummyAxis` (kipoiseq.transforms, not under
`src/`), acting on tensor shapes.  Spec 4.5 step 2: when `dummy_axis` is set,
insert a size-1 axis at that position, shifting subsequent axes outward. -/
def dummyAxisShape (dummy_axis : Option Nat) (shape : List AxisDim) : List AxisDim :=
  match dummy_axis with
  | none => shape
  | some d => shape.take d ++ { kind := AxisKind.dummyAx, size := 1 } :: shape.drop d

/-- Modelled from the spec: `SwapAxes` (kipoiseq.transforms, not under
`src/`), acting on tensor shapes: exchange the axes at positions `i` and
`j` (both must be in range for the underlying `np.swapaxes` call). -/
def swapAxesShape (i j : Nat) (shape : List AxisDim) : List AxisDim :=
  match shape[i]?, shape[j]? with
  | some a, some b => (shape.set i b).set j a
  | _, _ => shape

/-- Embedding of `self.input_tranform` (sequence.py lines 339-343) at the
shape level: `Compose` applies, in order, `OneHot(self.alphabet)`,
`DummyAxis(self.dummy_axis)`, and `SwapAxes(1, self.alphabet_axis)`. -/
def input_tranform_shape (alphabet_axis : Nat) (dummy_axis : Option Nat)
    (alphabet : List Char) (s : List Char) : List AxisDim :=
  swapAxesShape 1 alphabet_axis (dummyAxisShape dummy_axis (oneHotShape alphabet s))

/-! ## Claims -/

/-- C1: the claim says a string-valued `alphabet` argument (the default
`"ACGT"` or a named preset such as `"DNA"`) is resolved to a concrete ordered
symbol list at configuration time so that construction succeeds.  In the
code, `parse_alphabet` calls `alphabet.split('')`, and Python `str.split`
with an empty separator always raises `ValueError`, so `SeqDataset`
construction fails for every string alphabet, the default included. -/
theorem c1_string_alphabet_construction_fails :
    (∀ (ax : Nat) (d : Option Nat) (s : String),
      seqDatasetInit ax d (AlphabetArg.strArg s) =
        Except.error "ValueError: empty separator") ∧
    seqDatasetInit 1 none (AlphabetArg.strArg "ACGT") =
      Except.error "ValueError: empty separator" ∧
    seqDatasetInit 1 none (AlphabetArg.strArg "DNA") =
      Except.error "ValueError: empty separator" :=
  ⟨fun _ _ _ => rfl, rfl, rfl⟩

/-- C3: `parse_dtype` maps `None` to `None` (labels keep their
natively-inferred type), maps each of the recognized names `string`, `int`,
`float`, `bool` to the corresponding scalar type, and rejects every other
name with an error. -/
theorem c3_parse_dtype_total_on_recognized_names :
    parse_dtype PyDtypeArg.pyNone = Except.ok none ∧
    parse_dtype (PyDtypeArg.name "string") = Except.ok (some Dtype.dString) ∧
    parse_dtype (PyDtypeArg.name "int") = Except.ok (some Dtype.dInt) ∧
    parse_dtype (PyDtypeArg.name "float") = Except.ok (some Dtype.dFloat) ∧
    parse_dtype (PyDtypeArg.name "bool") = Except.ok (some Dtype.dBool) ∧
    ∀ s : String, s ∉ dtypeNames →
      ∃ e, parse_dtype (PyDtypeArg.name s) = Except.error e := by
  refine ⟨rfl, rfl, rfl, rfl, rfl, ?_⟩
  intro s hs
  simp only [dtypeNames, List.mem_cons, List.not_mem_nil, or_false, not_or] at hs
  obtain ⟨h1, h2, h3, h4⟩ := hs
  exact ⟨"Datatype " ++ s ++ " not recognized. Allowed are: int, string, float, bool",
    by simp [parse_dtype, dtypeOfName, h1, h2, h3, h4]⟩

/-- Witness for C3 at the unrecognized name `"complex"`. -/
theorem c3_witness :
    ∃ e, parse_dtype (PyDtypeArg.name "complex") = Except.error e :=
  c3_parse_dtype_total_on_recognized_names.2.2.2.2.2 "complex" (by decide)

/-- C2: interval-table construction fails at the first-row peek when the
first row's total column count minus `bed_columns` is negative, and gets
past that check (construction returns a table) whenever the difference
`n_tasks` is at least zero. -/
theorem c2_negative_n_tasks_rejected (label_dtype : Option Dtype)
    (bed_columns : Nat) (num_chr : Bool) (mask : Option α)
    (incl excl : Option (List String)) (r0 : BedRow α) (rest : List (BedRow α)) :
    ((1 + r0.rest.length : Int) - (bed_columns : Int) < 0 →
      bedDatasetInit label_dtype bed_columns num_chr mask incl excl (r0 :: rest) =
        Except.error "AssertionError: n_tasks >= 0") ∧
    (0 ≤ (1 + r0.rest.length : Int) - (bed_columns : Int) →
      ∃ out, bedDatasetInit label_dtype bed_columns num_chr mask incl excl (r0 :: rest) =
        Except.ok out) := by
  constructor
  · intro h
    simp [bedDatasetInit, h]
  · intro h
    refine ⟨applyExclFilter excl (applyInclFilter incl
      (applyMaskFilter bed_columns mask (normalizeChroms num_chr (r0 :: rest)))), ?_⟩
    simp [bedDatasetInit, not_lt.mpr h]

/-- Witness for C2: a 2-column row with `bed_columns = 3` is rejected, a
3-column row is accepted. -/
theorem c2_witness :
    bedDatasetInit (none : Option Dtype) 3 false (none : Option Nat) none none
        [{ chrom := "chr1", rest := [10] }] =
      Except.error "AssertionError: n_tasks >= 0" ∧
    ∃ out, bedDatasetInit (none : Option Dtype) 3 false (none : Option Nat) none none
        [{ chrom := "chr1", rest := [10, 20] }] = Except.ok out :=
  ⟨(c2_negative_n_tasks_rejected none 3 false none none none
      { chrom := "chr1", rest := [10] } []).1 (by decide),
   (c2_negative_n_tasks_rejected none 3 false none none none
      { chrom := "chr1", rest := [10, 20] } []).2 (by decide)⟩

/-! ### Helper lemmas -/

theorem list_filter_filter {γ : Type} (p q : γ → Bool) (l : List γ) :
    (l.filter p).filter q = l.filter (fun a => p a && q a) := by
  induction l with
  | nil => rfl
  | cons a t ih =>
    by_cases hp : p a = true <;> by_cases hq : q a = true <;>
      simp [List.filter_cons, hp, hq, ih]

theorem normalizeChromsStrip_length (num_chr : Bool) (rows : List (BedRow α)) :
    (normalizeChromsStrip num_chr rows).length = rows.length := by
  cases rows with
  | nil => rfl
  | cons r0 rest =>
    by_cases h : (num_chr && pyStartswithChr r0.chrom) = true <;>
      simp [normalizeChromsStrip, h]

theorem normalizeChromsPrepend_length (num_chr : Bool) (rows : List (BedRow α)) :
    (normalizeChromsPrepend num_chr rows).length = rows.length := by
  cases rows with
  | nil => rfl
  | cons r0 rest =>
    by_cases h : (!num_chr && !(pyStartswithChr r0.chrom)) = true <;>
      simp [normalizeChromsPrepend, h]

theorem normalizeChroms_length (num_chr : Bool) (rows : List (BedRow α)) :
    (normalizeChroms num_chr rows).length = rows.length := by
  unfold normalizeChroms
  rw [normalizeChromsPrepend_length, normalizeChromsStrip_length]

theorem applyMaskFilter_eq_filter (bed_columns : Nat) (m : α) (rows : List (BedRow α)) :
    applyMaskFilter bed_columns (some m) rows =
      rows.filter (fun r => !allMaskRow bed_columns m r) := rfl

theorem applyInclFilter_eq_filter (incl : Option (List String)) (rows : List (BedRow α)) :
    applyInclFilter incl rows = rows.filter (fun r => inclPred incl r) := by
  cases incl <;> simp [applyInclFilter, inclPred]

theorem applyExclFilter_eq_filter (excl : Option (List String)) (rows : List (BedRow α)) :
    applyExclFilter excl rows = rows.filter (fun r => exclPred excl r) := by
  cases excl <;> simp [applyExclFilter, exclPred]

/-- C5: chromosome normalization is decided once by sniffing row 0: with
`num_chr` set and row 0 starting with `"chr"`, the prefix is removed from
column 0 of every row; with `num_chr` unset and row 0 not starting with
`"chr"`, `"chr"` is prepended to column 0 of every row; in the two remaining
cases every row keeps its column 0. -/
theorem c5_chrom_normalization_sniffs_row_zero (num_chr : Bool)
    (r0 : BedRow α) (rest : List (BedRow α)) :
    (num_chr = true → pyStartswithChr r0.chrom = true →
      normalizeChroms num_chr (r0 :: rest) =
        (r0 :: rest).map (fun r => { r with chrom := stripChr r.chrom })) ∧
    (num_chr = false → pyStartswithChr r0.chrom = false →
      normalizeChroms num_chr (r0 :: rest) =
        (r0 :: rest).map (fun r => { r with chrom := "chr" ++ r.chrom })) ∧
    (num_chr = true → pyStartswithChr r0.chrom = false →
      normalizeChroms num_chr (r0 :: rest) = r0 :: rest) ∧
    (num_chr = false → pyStartswithChr r0.chrom = true →
      normalizeChroms num_chr (r0 :: rest) = r0 :: rest) := by
  refine ⟨?_, ?_, ?_, ?_⟩ <;> intro h1 h2 <;> subst h1 <;>
    simp [normalizeChroms, normalizeChromsStrip, normalizeChromsPrepend, h2]

/-- Witness for C5: the strip case and the prepend case at concrete tables. -/
theorem c5_witness :
    normalizeChroms true ([{ chrom := "chr1", rest := [] },
        { chrom := "2", rest := [] }] : List (BedRow Nat)) =
      ([{ chrom := "chr1", rest := [] },
        { chrom := "2", rest := [] }] : List (BedRow Nat)).map
        (fun r => { r with chrom := stripChr r.chrom }) ∧
    normalizeChroms false ([{ chrom := "1", rest := [] }] : List (BedRow Nat)) =
      ([{ chrom := "1", rest := [] }] : List (BedRow Nat)).map
        (fun r => { r with chrom := "chr" ++ r.chrom }) :=
  ⟨(c5_chrom_normalization_sniffs_row_zero true
      ({ chrom := "chr1", rest := [] } : BedRow Nat)
      [{ chrom := "2", rest := [] }]).1 rfl (by decide),
   (c5_chrom_normalization_sniffs_row_zero false
      ({ chrom := "1", rest := [] } : BedRow Nat) []).2.1 rfl (by decide)⟩

/-- C6: with `ambiguous_mask` set, the constructed table is the
chromosome-normalized row list filtered by a single conjunctive predicate
whose first conjunct keeps exactly the rows with at least one task-label
cell different from the mask; being one `List.filter`, the pipeline never
reorders rows, and the surviving rows form a sublist of the normalized rows
in file order. -/
theorem c6_mask_filter_exact_and_order_preserving (label_dtype : Option Dtype)
    (bed_columns : Nat) (num_chr : Bool) (m : α) (incl excl : Option (List String))
    (rows out : List (BedRow α)) :
    bedDatasetInit label_dtype bed_columns num_chr (some m) incl excl rows =
      Except.ok out →
    (out = (normalizeChroms num_chr rows).filter
        (fun r => !allMaskRow bed_columns m r && inclPred incl r && exclPred excl r) ∧
      out.Sublist (normalizeChroms num_chr rows)) ∧
    (∀ r : BedRow α, allMaskRow bed_columns m r = true ↔
      ∀ x ∈ rowLabels bed_columns r, x = m) := by
  intro h
  have key : out = (normalizeChroms num_chr rows).filter
      (fun r => !allMaskRow bed_columns m r && inclPred incl r && exclPred excl r) := by
    cases rows with
    | nil => simp [bedDatasetInit] at h
    | cons r0 rest =>
      simp only [bedDatasetInit] at h
      split at h
      · exact absurd h (by simp)
      · simp only [Except.ok.injEq] at h
        rw [← h, applyMaskFilter_eq_filter, applyInclFilter_eq_filter,
          applyExclFilter_eq_filter]
        simp only [list_filter_filter]
  refine ⟨⟨key, ?_⟩, ?_⟩
  · rw [key]
    exact List.filter_sublist _
  · intro r
    simp [allMaskRow, List.all_eq_true]

/-- Witness for C6: a two-row table with mask value 0 where only the first
row has all task labels equal to the mask. -/
theorem c6_witness :
    (([{ chrom := "chr2", rest := [30, 40, 5] }] : List (BedRow Nat)) =
        (normalizeChroms false [{ chrom := "chr1", rest := [10, 20, 0] },
          { chrom := "chr2", rest := [30, 40, 5] }]).filter
          (fun r => !allMaskRow 3 0 r && inclPred none r && exclPred none r) ∧
      List.Sublist ([{ chrom := "chr2", rest := [30, 40, 5] }] : List (BedRow Nat))
        (normalizeChroms false [{ chrom := "chr1", rest := [10, 20, 0] },
          { chrom := "chr2", rest := [30, 40, 5] }])) ∧
    (∀ r : BedRow Nat, allMaskRow 3 0 r = true ↔ ∀ x ∈ rowLabels 3 r, x = 0) :=
  c6_mask_filter_exact_and_order_preserving none 3 false 0 none none
    [{ chrom := "chr1", rest := [10, 20, 0] }, { chrom := "chr2", rest := [30, 40, 5] }]
    [{ chrom := "chr2", rest := [30, 40, 5] }] rfl

/-- C10: `SeqStringDataset` builds its interval table with `bed_columns = 3`
and with `ambiguous_mask`, `incl_chromosomes` and `excl_chromosomes` all
unset, so whenever construction succeeds the table is exactly the
chromosome-normalized file rows and the dataset length equals the file's
row count. -/
theorem c10_seq_string_dataset_applies_no_filters (num_chr_fasta : Bool)
    (label_dtype : PyDtypeArg) (rows out : List (BedRow α)) :
    seqStringDatasetInit num_chr_fasta label_dtype rows = Except.ok out →
    out = normalizeChroms num_chr_fasta rows ∧ out.length = rows.length := by
  intro h
  have key : out = normalizeChroms num_chr_fasta rows := by
    unfold seqStringDatasetInit at h
    cases hd : parse_dtype label_dtype with
    | error e =>
      rw [hd] at h
      simp at h
    | ok d =>
      rw [hd] at h
      cases rows with
      | nil => simp [bedDatasetInit] at h
      | cons r0 rest =>
        simp only [bedDatasetInit] at h
        split at h
        · exact absurd h (by simp)
        · simp only [Except.ok.injEq] at h
          rw [← h]
          rfl
  exact ⟨key, by rw [key, normalizeChroms_length]⟩

/-- Witness for C10: a one-row file yields a one-row dataset. -/
theorem c10_witness :
    ([{ chrom := "chr1", rest := ([10, 20] : List Nat) }] : List (BedRow Nat)) =
        normalizeChroms false [{ chrom := "chr1", rest := [10, 20] }] ∧
      ([{ chrom := "chr1", rest := ([10, 20] : List Nat) }] : List (BedRow Nat)).length =
        ([{ chrom := "chr1", rest := ([10, 20] : List Nat) }] : List (BedRow Nat)).length :=
  c10_seq_string_dataset_applies_no_filters false PyDtypeArg.pyNone
    [{ chrom := "chr1", rest := [10, 20] }] [{ chrom := "chr1", rest := [10, 20] }] rfl

theorem resize_interval_exact_length (interval : Interval) (anchor : String)
    (L : Int) (iv : Interval) (h : resize_interval interval anchor L = Except.ok iv) :
    iv.stop - iv.start = L := by
  unfold resize_interval at h
  split_ifs at h <;> simp only [Except.ok.injEq] at h <;> subst h <;> dsimp only <;> omega

/-- C4: when `required_seq_len` is set and the fetched interval's length
differs from it, `get` fails when `auto_resize` is unset; with a recognized
`auto_resize` anchor it instead resizes the interval to exactly
`required_seq_len` and extracts from the resized interval. -/
theorem c4_length_mismatch_resizes_or_fails (L : Int) (auto_resize : Option String)
    (extract : Interval → String) (idx : Nat) (interval : Interval) (labels : β)
    (hlen : interval.stop - interval.start ≠ L) :
    (auto_resize = none →
      seqStringGetitem (some L) auto_resize extract idx interval labels =
        Except.error "Sequence interval in intervals_file does not match required model sequence length. Update intervals_file or use the auto_resize argument.") ∧
    (∀ anchor, auto_resize = some anchor →
      anchor = "start" ∨ anchor = "end" ∨ anchor = "center" →
      ∃ iv, resize_interval interval anchor L = Except.ok iv ∧
        iv.stop - iv.start = L ∧
        seqStringGetitem (some L) auto_resize extract idx interval labels =
          Except.ok (mkSeqRecord extract idx iv labels)) := by
  constructor
  · intro ha
    subst ha
    simp [seqStringGetitem, resolveInterval, hlen]
  · intro anchor ha hvalid
    subst ha
    have hres : ∃ iv, resize_interval interval anchor L = Except.ok iv := by
      rcases hvalid with hv | hv | hv <;> subst hv <;> exact ⟨_, rfl⟩
    obtain ⟨iv, hiv⟩ := hres
    refine ⟨iv, hiv, resize_interval_exact_length interval anchor L iv hiv, ?_⟩
    simp [seqStringGetitem, resolveInterval, hlen, hiv]

/-- Witness for C4: the interval `chr21:[30, 35)` with required length 20
fails without `auto_resize` and resizes to length 20 with anchor `center`. -/
theorem c4_witness :
    (seqStringGetitem (some 20) none (fun _ => "N") 1
        { chrom := "chr21", start := 30, stop := 35 } (0 : Nat) =
      Except.error "Sequence interval in intervals_file does not match required model sequence length. Update intervals_file or use the auto_resize argument.") ∧
    ∃ iv, resize_interval { chrom := "chr21", start := 30, stop := 35 } "center" 20 =
        Except.ok iv ∧
      iv.stop - iv.start = 20 ∧
      seqStringGetitem (some 20) (some "center") (fun _ => "N") 1
          { chrom := "chr21", start := 30, stop := 35 } (0 : Nat) =
        Except.ok (mkSeqRecord (fun _ => "N") 1 iv (0 : Nat)) :=
  ⟨(c4_length_mismatch_resizes_or_fails 20 none (fun _ => "N") 1
      { chrom := "chr21", start := 30, stop := 35 } 0 (by decide)).1 rfl,
   (c4_length_mismatch_resizes_or_fails 20 (some "center") (fun _ => "N") 1
      { chrom := "chr21", start := 30, stop := 35 } 0 (by decide)).2 "center" rfl
      (Or.inr (Or.inr rfl))⟩

/-- C7: when `required_seq_len` is unset, or the fetched interval's length
already equals it, `get` performs no resize: the sequence is extracted from
the table's interval unchanged and the metadata carries exactly that
interval's chromosome, start and stop. -/
theorem c7_matching_interval_passes_unchanged (required_seq_len : Option Int)
    (auto_resize : Option String) (extract : Interval → String) (idx : Nat)
    (interval : Interval) (labels : β)
    (h : required_seq_len = none ∨
      required_seq_len = some (interval.stop - interval.start)) :
    seqStringGetitem required_seq_len auto_resize extract idx interval labels =
      Except.ok
        { inputs := extract interval, targets := labels,
          metadata := { chrom := interval.chrom, start := interval.start,
                        stop := interval.stop, id := toString idx } } := by
  rcases h with h | h <;> subst h <;>
    simp [seqStringGetitem, resolveInterval, mkSeqRecord]

/-- Witness for C7: an interval of the required length 10 is extracted as-is. -/
theorem c7_witness :
    seqStringGetitem (some 10) (some "center") (fun iv => iv.chrom) 3
        { chrom := "chr1", start := 0, stop := 10 } (0 : Nat) =
      Except.ok
        { inputs := "chr1", targets := 0,
          metadata := { chrom := "chr1", start := 0, stop := 10, id := "3" } } :=
  c7_matching_interval_passes_unchanged (some 10) (some "center")
    (fun iv => iv.chrom) 3 { chrom := "chr1", start := 0, stop := 10 } 0 (by decide)

/-- C9: every record returned by `get` has metadata whose chromosome, start
and stop are those of the interval actually extracted (the table's interval,
or its resized version when a resize happened), and whose id is the string
form of the requested index, not derived from genomic coordinates. -/
theorem c9_metadata_matches_extracted_interval (required_seq_len : Option Int)
    (auto_resize : Option String) (extract : Interval → String) (idx : Nat)
    (interval : Interval) (labels : β) (rec : SeqRecord β)
    (h : seqStringGetitem required_seq_len auto_resize extract idx interval labels =
      Except.ok rec) :
    rec.metadata.id = toString idx ∧
    ∃ iv, rec.inputs = extract iv ∧ rec.targets = labels ∧
      rec.metadata.chrom = iv.chrom ∧ rec.metadata.start = iv.start ∧
      rec.metadata.stop = iv.stop ∧
      (iv = interval ∨ ∃ anchor L, required_seq_len = some L ∧
        auto_resize = some anchor ∧
        resize_interval interval anchor L = Except.ok iv) := by
  unfold seqStringGetitem at h
  cases hr : resolveInterval required_seq_len auto_resize interval with
  | error e =>
    rw [hr] at h
    simp at h
  | ok iv =>
    rw [hr] at h
    simp only [Except.ok.injEq] at h
    subst h
    refine ⟨rfl, iv, rfl, rfl, rfl, rfl, rfl, ?_⟩
    unfold resolveInterval at hr
    split at hr
    · simp only [Except.ok.injEq] at hr
      exact Or.inl hr.symm
    · split at hr
      · simp only [Except.ok.injEq] at hr
        exact Or.inl hr.symm
      · split at hr
        · exact Or.inr ⟨_, _, rfl, rfl, hr⟩
        · simp at hr

/-- Witness for C9 at a lookup with no resize: the metadata is that of the
table's interval and the id is `"7"`. -/
theorem c9_witness :
    ({ inputs := "ACGT", targets := 0,
       metadata := { chrom := "chr1", start := 5, stop := 9, id := "7" } } :
        SeqRecord Nat).metadata.id = toString 7 ∧
    ∃ iv,
      ({ inputs := "ACGT", targets := 0,
         metadata := { chrom := "chr1", start := 5, stop := 9, id := "7" } } :
          SeqRecord Nat).inputs = (fun _ => "ACGT") iv ∧
      ({ inputs := "ACGT", targets := 0,
         metadata := { chrom := "chr1", start := 5, stop := 9, id := "7" } } :
          SeqRecord Nat).targets = 0 ∧
      ({ inputs := "ACGT", targets := 0,
         metadata := { chrom := "chr1", start := 5, stop := 9, id := "7" } } :
          SeqRecord Nat).metadata.chrom = iv.chrom ∧
      ({ inputs := "ACGT", targets := 0,
         metadata := { chrom := "chr1", start := 5, stop := 9, id := "7" } } :
          SeqRecord Nat).metadata.start = iv.start ∧
      ({ inputs := "ACGT", targets := 0,
         metadata := { chrom := "chr1", start := 5, stop := 9, id := "7" } } :
          SeqRecord Nat).metadata.stop = iv.stop ∧
      (iv = { chrom := "chr1", start := 5, stop := 9 } ∨
        ∃ anchor L, (none : Option Int) = some L ∧
          (none : Option String) = some anchor ∧
          resize_interval { chrom := "chr1", start := 5, stop := 9 } anchor L =
            Except.ok iv) :=
  c9_metadata_matches_extracted_interval none none (fun _ => "ACGT") 7
    { chrom := "chr1", start := 5, stop := 9 } 0
    { inputs := "ACGT", targets := 0,
      metadata := { chrom := "chr1", start := 5, stop := 9, id := "7" } } rfl

/-- C8: the encoded dataset's input transform applies, in order, one-hot
encoding (one row per sequence position, row width the alphabet size), then
optional dummy-axis insertion, then the swap of axis 1 with `alphabet_axis`;
with `dummy_axis` unset the output tensor has exactly 2 axes, and with
`dummy_axis = 2` and `alphabet_axis = 1` it has exactly 3 axes with the
symbol-count dimension at axis 1. -/
theorem c8_transform_order_and_axes (alphabet s : List Char) (alphabet_axis : Nat) :
    ((one_hot alphabet s).length = s.length ∧
      ∀ row ∈ one_hot alphabet s, row.length = alphabet.length) ∧
    (alphabet_axis ≤ 1 →
      (input_tranform_shape alphabet_axis none alphabet s).length = 2) ∧
    ((input_tranform_shape 1 (some 2) alphabet s).length = 3 ∧
      (input_tranform_shape 1 (some 2) alphabet s)[1]? =
        some { kind := AxisKind.symbol, size := alphabet.length }) := by
  refine ⟨⟨by simp [one_hot], ?_⟩, ?_, rfl, rfl⟩
  · intro row hrow
    simp only [one_hot, List.mem_map] at hrow
    obtain ⟨c, _, hc⟩ := hrow
    rw [← hc]
    simp
  · intro hax
    interval_cases alphabet_axis <;> rfl

/-- Witness for C8 with the DNA alphabet and the sequence `GA`. -/
theorem c8_witness :
    (∀ row ∈ one_hot ['A', 'C', 'G', 'T'] ['G', 'A'],
      row.length = (['A', 'C', 'G', 'T'] : List Char).length) ∧
    (input_tranform_shape 0 none ['A', 'C', 'G', 'T'] ['G', 'A']).length = 2 ∧
    (input_tranform_shape 1 (some 2) ['A', 'C', 'G', 'T'] ['G', 'A'])[1]? =
      some { kind := AxisKind.symbol, size := (['A', 'C', 'G', 'T'] : List Char).length } :=
  ⟨(c8_transform_order_and_axes ['A', 'C', 'G', 'T'] ['G', 'A'] 0).1.2,
   (c8_transform_order_and_axes ['A', 'C', 'G', 'T'] ['G', 'A'] 0).2.1 (by decide),
   (c8_transform_order_and_axes ['A', 'C', 'G', 'T'] ['G', 'A'] 0).2.2.2⟩

end Kipoiseq
